import Mathlib

/-!
Verification of the data set lifecycle engine of the ibm_zos_core collection
(plugins/module_utils/data_set.py and plugins/modules/zos_data_set.py).

The code shells out to external facilities (IDCAMS, IEHPROGM, ZOAU).  We embed
it shallowly: every external interaction (a catalog query, a catalog or
uncatalog or delete primitive, a create call) is answered by an oracle
environment that scripts the outcome of each successive call, and the embedded
functions also return an event trace recording the calls they made, so that
ordering properties of the reconciliation protocol can be stated.  Python
exceptions become Except values; Python str becomes String; regular expression
searches used by the code are implemented character by character with the same
backtracking semantics (restricted to the character classes the code uses).
-/

namespace ZosDataSet

/-- Single quote character, used when building catalog facility command text. -/
def sq : String := String.mk [Char.ofNat 39]

/-- Decidable check that pattern is a prefix of s (on character lists). -/
def hasPrefixC : List Char → List Char → Bool
  | [], _ => true
  | _ :: _, [] => false
  | p :: ps, c :: cs => p = c && hasPrefixC ps cs

/-- Decidable check that pattern occurs as a contiguous substring of s,
    the semantics of the Python expression pattern in s. -/
def isInfixC (pat : List Char) : List Char → Bool
  | [] => hasPrefixC pat []
  | c :: cs => hasPrefixC pat (c :: cs) || isInfixC pat cs

/-- Python membership test for strings: pattern in s. -/
def strContains (s pat : String) : Bool := isInfixC pat.toList s.toList

/-- Python regular expression whitespace class backslash-s. -/
def isWsChar (c : Char) : Bool :=
  c = ' ' || c = Char.ofNat 9 || c = Char.ofNat 10 || c = Char.ofNat 13 ||
  c = Char.ofNat 11 || c = Char.ofNat 12

/-- The newline character. -/
def nlChar : Char := Char.ofNat 10

/-- Python str.upper restricted to ASCII, the alphabet of data set names. -/
def pyUpper (s : String) : String := String.mk (s.toList.map Char.toUpper)

/-- Python single-character str.split: split a character list on a separator
    character, keeping empty groups. -/
def splitOnC (sep : Char) : List Char → List (List Char)
  | [] => [[]]
  | c :: cs =>
      if c = sep then [] :: splitOnC sep cs
      else
        match splitOnC sep cs with
        | [] => [[c]]
        | g :: gs => (c :: g) :: gs

/-- Worker for splitOnSeq; the fuel bounds the number of characters still to
    scan, so the zero case is unreachable when fuel starts at the length. -/
def splitSeqAux (sep : List Char) : Nat → List Char → List Char → List (List Char)
  | 0, s, acc => [acc.reverse ++ s]
  | _ + 1, [], acc => [acc.reverse]
  | fuel + 1, c :: cs, acc =>
      if hasPrefixC sep (c :: cs) then
        acc.reverse :: splitSeqAux sep fuel (List.drop (sep.length - 1) cs) []
      else splitSeqAux sep fuel cs (c :: acc)

/-- Python str.split on a non-empty multi-character separator: leftmost,
    non-overlapping occurrences. -/
def splitOnSeq (sep : List Char) (s : List Char) : List (List Char) :=
  if sep.isEmpty then [s] else splitSeqAux sep s.length s []

/-! ## Error taxonomy (data_set.py exception classes) -/

/-- The typed errors raised by DataSet primitives in data_set.py.  Each
    variant mirrors one exception class; payloads keep the arguments that the
    claims need to observe. -/
inductive DsError where
  | createError (name : String) (msg : String)
  | deleteError (name : String)
  | catalogError (name : String) (volumes : List String) (rc : Int) (msg : String)
  | uncatalogError (name : String)
  | writeError (name : String)
  | formatError (name : String)
deriving Repr, DecidableEq

/-! ## Catalog Inspector: DataSet.data_set_cataloged (data_set.py lines 328-354)

The Python function issues one LISTCAT command through the executor and then
either (volumes supplied) intersects the requested volumes with the volume
list parsed from a second LISTCAT ALL response, or (no volumes) searches the
response text for the IN-CAT pattern.  We embed it as a pure function of the
executor responses: rc and stdout of the first command, and the stdout of the
LISTCAT ALL command used by data_set_cataloged_volume_list.  The Except result
type records whether the function can raise; in this version of the code no
path raises and the return code is never inspected. -/

/-- Python truthiness of the volumes argument (None and the empty list are
    both falsy). -/
def truthy (v : Option (List String)) : Bool :=
  match v with
  | none => false
  | some l => !l.isEmpty

/-- Python x[:x.find(c)]: up to the first occurrence of c, or all but the
    last character when c does not occur (find returns -1). -/
def pyTakeToSpace (x : List Char) : List Char :=
  if x.contains ' ' then x.takeWhile (fun c => c ≠ ' ')
  else x.dropLast

/-- DataSet.data_set_cataloged_volume_list, as a function of the stdout of
    the LISTCAT ALL command it runs: split on the VOLSER delimiter, take each
    chunk up to its first blank, deduplicate (the Python list(set(..)) loses
    order; we keep first occurrences, which preserves the underlying set). -/
def data_set_cataloged_volume_list (stdout : String) : List String :=
  let arr := splitOnSeq "VOLSER------------".toList stdout.toList
  ((arr.drop 1).map (fun x => String.mk (pyTakeToSpace x))).eraseDups

/-- Matcher for the regex fragment backslash-s+ IN-CAT at the head of the
    input: one or more whitespace characters followed by the literal IN-CAT. -/
def matchWsIncat : List Char → Bool
  | [] => false
  | c :: cs => isWsChar c && (hasPrefixC "IN-CAT".toList cs || matchWsIncat cs)

/-- Matcher for the regex fragment backslash-s* newline backslash-s+ IN-CAT
    at the head of the input, with full backtracking. -/
def matchNlIncat : List Char → Bool
  | [] => false
  | c :: cs => (c = nlChar && matchWsIncat cs) || (isWsChar c && matchNlIncat cs)

/-- Match the name part of the pattern.  The pattern is built by splicing the
    data set name into the regex, so a dot in the name is the regex wildcard
    (any character except newline); all other characters in a valid data set
    name are matched literally.  Returns the rest of the input on success. -/
def matchNamePart : List Char → List Char → Option (List Char)
  | [], s => some s
  | _ :: _, [] => none
  | p :: ps, c :: cs =>
      if (p = '.' && c ≠ nlChar) || p = c then matchNamePart ps cs else none

/-- Match - backslash-s NAME backslash-s* newline backslash-s+ IN-CAT at the
    head of the input. -/
def matchInCatAt (name : List Char) : List Char → Bool
  | '-' :: c :: rest =>
      isWsChar c &&
        (match matchNamePart name rest with
         | some r => matchNlIncat r
         | none => false)
  | _ => false

/-- Unanchored search (re.search) for the IN-CAT pattern built around the
    data set name, as in data_set_cataloged. -/
def inCatSearch (name : List Char) : List Char → Bool
  | [] => false
  | c :: cs => matchInCatAt name (c :: cs) || inCatSearch name cs

/-- DataSet.data_set_cataloged embedded over the executor responses.
    rc and stdout are the return code and output of the LISTCAT command it
    runs; volListStdout is the output of the LISTCAT ALL command that
    data_set_cataloged_volume_list would run in the volumes branch.  The
    source never reads rc or stderr: the result is decided purely by text
    matching, and no path raises. -/
def data_set_cataloged (rc : Int) (stdout : String) (name : String)
    (volumes : Option (List String)) (volListStdout : String) : Except DsError Bool :=
  let nameU := pyUpper name
  if truthy volumes then
    let vols := volumes.getD []
    let cataloged_volume_list := data_set_cataloged_volume_list volListStdout
    .ok (vols.any (fun v => cataloged_volume_list.contains v))
  else
    .ok (inCatSearch nameU.toList stdout.toList)

/-! ## Argument validators (zos_data_set.py) -/

/-- zos_data_set.py DEFAULT_RECORD_LENGTHS. -/
def DEFAULT_RECORD_LENGTHS : List (String × Int) :=
  [("FB", 80), ("FBA", 80), ("VB", 137), ("VBA", 137), ("U", 0)]

/-- Python DEFAULT_RECORD_LENGTHS.get(record_format, None). -/
def lookupDefaultRecordLength (fmt : Option String) : Option Int :=
  match fmt with
  | none => none
  | some f => DEFAULT_RECORD_LENGTHS.lookup f

/-- zos_data_set.py record_length validator (lines 841-859), embedded over
    the already parsed contents (Python int(contents)) and the state and
    record_format dependencies.  For an integer, the digit-string regex check
    in the source fails exactly on negative values, so the error condition is
    n below 0 or n above 32768. -/
def record_length (contents : Option Int) (state : String)
    (record_format : Option String) : Except String (Option Int) :=
  if state = "absent" then .ok none
  else
    let c : Option Int :=
      match contents with
      | none => lookupDefaultRecordLength record_format
      | some n => some n
    match c with
    | none => .ok none
    | some n =>
        if n < 0 || n > 32768 then
          .error ("Value " ++ toString n ++
            " is invalid for record_length argument. record_length must be between 0 and 32768 bytes.")
        else .ok (some n)

/-- National characters allowed in data set names. -/
def isNationalChar (c : Char) : Bool := c = '$' || c = '#' || c = '@'

/-- First character of a qualifier: the class [A-Z$#@] under re.IGNORECASE
    (restricted to ASCII). -/
def isQualStartChar (c : Char) : Bool := c.isAlpha || isNationalChar c

/-- Remaining characters of a qualifier: the class [A-Z0-9$#@-] under
    re.IGNORECASE (restricted to ASCII). -/
def isQualRestChar (c : Char) : Bool :=
  c.isAlpha || c.isDigit || isNationalChar c || c = '-'

/-- One qualifier: 1 to 8 characters, first from the start class, rest from
    the rest class. -/
def validQualifier (s : List Char) : Bool :=
  match s with
  | [] => false
  | c :: cs => isQualStartChar c && cs.length ≤ 7 && cs.all isQualRestChar

/-- The first regex of the data_set_name validator: between 2 and 22 dotted
    qualifiers (one to twenty-one qualifier-dot groups followed by one final
    qualifier), matched in full. -/
def matchDsnameBase (s : String) : Bool :=
  let parts := splitOnC '.' s.toList
  2 ≤ parts.length && parts.length ≤ 22 && parts.all validQualifier

/-- Member name inside parentheses: 1 to 8 characters, first from the start
    class, rest letters, digits or national characters (no hyphen). -/
def validMemberChars (s : List Char) : Bool :=
  match s with
  | [] => false
  | c :: cs =>
      isQualStartChar c && cs.length ≤ 7 &&
        cs.all (fun d => d.isAlpha || d.isDigit || isNationalChar d)

/-- The second regex of the data_set_name validator: a base name followed by
    an optional parenthesized member suffix, matched in full. -/
def matchDsnameWithMember (s : String) : Bool :=
  matchDsnameBase s ||
  (match splitOnC '(' s.toList with
   | [base, rest] =>
       matchDsnameBase (String.mk base) && rest.getLast? = some ')' &&
       validMemberChars rest.dropLast
   | _ => false)

/-- zos_data_set.py data_set_name validator (lines 760-794), embedded from
    the point where the name string is in hand (the earlier branches handle
    batch mode and a missing name via an externally generated temporary
    name).  dep_type is dependencies.get("type").  Accepts when the first
    regex matches, or when the member regex matches and the type dependency
    is MEMBER; otherwise raises ValueError. -/
def data_set_name (dsname : String) (dep_type : Option String) : Except String String :=
  if matchDsnameBase dsname then .ok (pyUpper dsname)
  else if matchDsnameWithMember dsname && dep_type == some "MEMBER" then .ok (pyUpper dsname)
  else .error ("Value " ++ dsname ++ " is invalid for data set argument.")

/-! ## Reconciliation Engine over an oracle environment

The ensure operations call a fixed set of primitives: data_set_cataloged,
data_set_cataloged_volume_list, catalog, uncatalog, delete, create and
format_zfs.  Each primitive shells out; its outcome (a boolean, a volume
list, or success versus the typed error that the primitive raises on a bad
return code) is scripted by an Env, indexed by how many calls to that
primitive have happened so far.  Every primitive call is also recorded in an
event trace so that the order of operations of the divergence protocol can be
observed.  For the catalog query the oracle answer may depend on the volume
filter that the code passes, since that is the argument whose handling the
claims are about. -/

/-- Oracle for the outcomes of the external primitives, indexed by the number
    of previous calls to the same primitive. -/
structure Env where
  catQ : Nat → Option (List String) → Bool
  volListQ : Nat → List String
  uncatOk : Nat → Bool
  catOk : Nat → Bool
  delOk : Nat → Bool
  createErr : Nat → Option String
  formatOk : Bool

/-- Per-primitive call counters. -/
structure Cnt where
  q : Nat
  vq : Nat
  u : Nat
  c : Nat
  d : Nat
  cr : Nat
deriving Repr, DecidableEq

/-- All counters start at zero. -/
def Cnt.init : Cnt := ⟨0, 0, 0, 0, 0, 0⟩

/-- One recorded primitive call together with its scripted outcome. -/
inductive Ev where
  | query (vols : Option (List String)) (res : Bool)
  | queryVolList (res : List String)
  | uncat (ok : Bool)
  | cat (vols : List String) (ok : Bool)
  | del (ok : Bool)
  | create (errMsg : Option String)
  | format (ok : Bool)
deriving Repr, DecidableEq

/-- Threaded state: counters plus the event trace so far. -/
abbrev St := Cnt × List Ev

/-- Call DataSet.data_set_cataloged(name, vols). -/
def doQuery (env : Env) (s : St) (vols : Option (List String)) : Bool × St :=
  let r := env.catQ s.1.q vols
  (r, ({ s.1 with q := s.1.q + 1 }, s.2 ++ [Ev.query vols r]))

/-- Call DataSet.data_set_cataloged_volume_list(name). -/
def doVolList (env : Env) (s : St) : List String × St :=
  let r := env.volListQ s.1.vq
  (r, ({ s.1 with vq := s.1.vq + 1 }, s.2 ++ [Ev.queryVolList r]))

/-- Call DataSet.uncatalog(name); false means it raised DatasetUncatalogError. -/
def doUncat (env : Env) (s : St) : Bool × St :=
  let r := env.uncatOk s.1.u
  (r, ({ s.1 with u := s.1.u + 1 }, s.2 ++ [Ev.uncat r]))

/-- Call DataSet.catalog(name, vols); false means it raised DatasetCatalogError. -/
def doCat (env : Env) (s : St) (vols : List String) : Bool × St :=
  let r := env.catOk s.1.c
  (r, ({ s.1 with c := s.1.c + 1 }, s.2 ++ [Ev.cat vols r]))

/-- Call DataSet.delete(name); false means it raised DatasetDeleteError. -/
def doDelete (env : Env) (s : St) : Bool × St :=
  let r := env.delOk s.1.d
  (r, ({ s.1 with d := s.1.d + 1 }, s.2 ++ [Ev.del r]))

/-- Call DataSet.create(..); some msg means it raised DatasetCreateError with
    that message text. -/
def doCreate (env : Env) (s : St) : Option String × St :=
  let r := env.createErr s.1.cr
  (r, ({ s.1 with cr := s.1.cr + 1 }, s.2 ++ [Ev.create r]))

/-- DataSet.attempt_catalog_if_necessary (data_set.py lines 644-669), over
    the oracle.  Returns ((present, changed), state).  The volumes test in
    the source is: volumes is not None (so an empty list still attempts the
    catalog). -/
def attempt_catalog_if_necessary (env : Env) (s : St) (name : String)
    (volumes : Option (List String)) : (Bool × Bool) × St :=
  let (r, s1) := doQuery env s none
  if r then ((true, false), s1)
  else
    match volumes with
    | none => ((false, false), s1)
    | some vols =>
        let (cOk, s2) := doCat env s1 vols
        if cOk then ((true, true), s2) else ((false, false), s2)

/-- DataSet.attempt_catalog_if_necessary_and_delete (data_set.py lines
    671-777), over the oracle.  Returns (Except error (changed, present),
    state); an error value models a Python exception propagating out of the
    function (only DataSet.delete is called outside a try block there). -/
def attempt_catalog_if_necessary_and_delete (env : Env) (name : String)
    (volumes : Option (List String)) : Except DsError (Bool × Bool) × St :=
  let s0 : St := (Cnt.init, [])
  if truthy volumes then
    let vols := volumes.getD []
    let (p1, s1) := doQuery env s0 none
    if p1 then
      let (p2, s2) := doQuery env s1 (some vols)
      if p2 then
        -- cataloged on the provided volumes: delete directly (unguarded)
        let (dOk, s3) := doDelete env s2
        if dOk then (.ok (true, false), s3)
        else (.error (DsError.deleteError name), s3)
      else
        -- divergence protocol
        let (cataloged_volume_list_original, s3) := doVolList env s2
        let (uOk, s4) := doUncat env s3
        if uOk then
          let (cOk, s5) := doCat env s4 vols
          if cOk then
            let (p3, s6) := doQuery env s5 (some vols)
            if p3 then
              let (dOk, s7) := doDelete env s6
              if dOk then
                let (_, s8) := doCat env s7 cataloged_volume_list_original
                (.ok (true, false), s8)
              else
                let (u2, s8) := doUncat env s7
                if u2 then (.ok (false, true), s8)
                else
                  let (_, s9) := doCat env s8 cataloged_volume_list_original
                  (.ok (false, true), s9)
            else (.ok (false, false), s6)
          else
            let (_, s6) := doCat env s5 cataloged_volume_list_original
            (.ok (false, false), s6)
        else (.ok (false, false), s4)
    else
      let (cOk, s2) := doCat env s1 vols
      if cOk then
        let (p3, s3) := doQuery env s2 (some vols)
        if p3 then
          let (dOk, s4) := doDelete env s3
          if dOk then (.ok (true, false), s4)
          else (.error (DsError.deleteError name), s4)
        else (.ok (false, false), s3)
      else (.ok (false, false), s2)
  else
    let (p1, s1) := doQuery env s0 none
    if p1 then
      let (dOk, s2) := doDelete env s1
      if dOk then (.ok (true, false), s2)
      else (.ok (false, true), s2)
    else (.ok (false, false), s1)

/-- DataSet.ensure_absent (data_set.py lines 200-211): forwards to
    attempt_catalog_if_necessary_and_delete and returns the changed flag. -/
def ensure_absent (env : Env) (name : String) (volumes : Option (List String)) :
    Except DsError Bool × St :=
  match attempt_catalog_if_necessary_and_delete env name volumes with
  | (.ok (changed, _), s) => (.ok changed, s)
  | (.error e, s) => (.error e, s)

/-- DataSet.ensure_cataloged (data_set.py lines 242-262): checks the catalog
    with no volume filter; when not cataloged, attempts the catalog and
    converts a catalog error into the specific not-found catalog error
    (the source passes the string -1 as the return code). -/
def ensure_cataloged (env : Env) (name : String) (volumes : List String) :
    Except DsError Bool × St :=
  let (r, s1) := doQuery env (Cnt.init, []) none
  if r then (.ok false, s1)
  else
    let (cOk, s2) := doCat env s1 volumes
    if cOk then (.ok true, s2)
    else
      (.error (DsError.catalogError name volumes (-1)
        "Data set was not found. Unable to catalog."), s2)

/-- DataSet.replace (data_set.py lines 802-880): delete then create. -/
def replaceStep (env : Env) (name : String) (s : St) : Except DsError Unit × St :=
  let (dOk, s1) := doDelete env s
  if dOk then
    let (cerr, s2) := doCreate env s1
    match cerr with
    | none => (.ok (), s2)
    | some msg => (.error (DsError.createError name msg), s2)
  else (.error (DsError.deleteError name), s1)

/-- The tail of DataSet.ensure_present: format when the requested type is
    ZFS, then report changed. -/
def zfsTail (env : Env) (type : String) (name : String) (s : St) :
    Except DsError Bool × St :=
  if pyUpper type == "ZFS" then
    if env.formatOk then (.ok true, (s.1, s.2 ++ [Ev.format true]))
    else (.error (DsError.formatError name), (s.1, s.2 ++ [Ev.format false]))
  else (.ok true, s)

/-- DataSet.ensure_present (data_set.py lines 172-198), over the oracle.
    When the initial catalog query is negative the create is attempted; a
    creation error whose message contains the exists-on-volume signature
    Error Code: 0x4704 triggers the catalog-from-volume recovery, and only a
    recovery that reports present and changed suppresses the original
    creation error. -/
def ensure_present (env : Env) (name : String) (replace : Bool) (type : String)
    (volumes : Option (List String)) : Except DsError Bool × St :=
  let (p0, s1) := doQuery env (Cnt.init, []) none
  if p0 then
    if !replace then (.ok false, s1)
    else
      match replaceStep env name s1 with
      | (.ok _, s2) => zfsTail env type name s2
      | (.error e, s2) => (.error e, s2)
  else
    let (cerr, s2) := doCreate env s1
    match cerr with
    | none => zfsTail env type name s2
    | some msg =>
        if strContains msg "Error Code: 0x4704" then
          let (pc, s3) := attempt_catalog_if_necessary env s2 name volumes
          if pc.1 && pc.2 then
            if !replace then (.ok pc.2, s3)
            else
              match replaceStep env name s3 with
              | (.ok _, s4) => zfsTail env type name s4
              | (.error e, s4) => (.error e, s4)
          else (.error (DsError.createError name msg), s3)
        else (.error (DsError.createError name msg), s2)

/-! ## VSAM catalog primitive: DataSet._catalog_vsam (data_set.py 1095-1165)

The function inspects the volume table of contents for DATA and INDEX
entries of the cluster, builds one recatalog command (indexed when both
entries exist, non-indexed otherwise), executes it, and on a nonzero return
code executes one final linear-cluster recatalog command before raising a
catalog error.  The oracle scripts the truthiness of the two VTOC lookups
and the return code of each successive facility invocation; the embedding
returns the list of command texts executed. -/

/-- The _VSAM_CATALOG_COMMAND_NOT_INDEXED template with its three fields
    spliced in. -/
def vsamCatalogCommandNotIndexed (name volStr typ : String) : String :=
  " DEFINE CLUSTER -\n    (NAME(" ++ sq ++ name ++ sq ++ ") -\n    VOLUMES(" ++
    volStr ++ ") -\n    RECATALOG " ++ typ ++ ") -\n    DATA(NAME(" ++ sq ++
    name ++ ".DATA" ++ sq ++ "))\n    "

/-- The _VSAM_CATALOG_COMMAND_INDEXED template with its three fields
    spliced in. -/
def vsamCatalogCommandIndexed (name volStr typ : String) : String :=
  " DEFINE CLUSTER -\n    (NAME(" ++ sq ++ name ++ sq ++ ") -\n    VOLUMES(" ++
    volStr ++ ") -\n    RECATALOG " ++ typ ++ ") -\n    DATA(NAME(" ++ sq ++
    name ++ ".DATA" ++ sq ++ ")) -\n    INDEX(NAME(" ++ sq ++ name ++
    ".INDEX" ++ sq ++ "))\n    "

/-- DataSet._build_volume_string_idcams. -/
def buildVolumeStringIdcams (volumes : List String) : String :=
  String.intercalate (" -\n    ") volumes

/-- Oracle for _catalog_vsam: truthiness of the two VTOC lookups and the
    return code of each successive IDCAMS invocation. -/
structure VsamEnv where
  vtocDataEntry : Bool
  vtocIndexEntry : Bool
  rc : Nat → Int

/-- DataSet._catalog_vsam over the oracle.  Returns the outcome and the list
    of facility command texts executed, in order. -/
def catalog_vsam (env : VsamEnv) (name : String) (volumes : List String) :
    Except DsError Unit × List String :=
  let data_set_name := pyUpper name
  let data_set_type_vsam :=
    if env.vtocDataEntry && env.vtocIndexEntry then "INDEXED" else "NONINDEXED"
  let command :=
    if data_set_type_vsam ≠ "INDEXED" then
      vsamCatalogCommandNotIndexed data_set_name
        (buildVolumeStringIdcams volumes) data_set_type_vsam
    else
      vsamCatalogCommandIndexed data_set_name
        (buildVolumeStringIdcams volumes) data_set_type_vsam
  let rc1 := env.rc 0
  if rc1 = 0 then (.ok (), [command])
  else
    let command2 :=
      vsamCatalogCommandNotIndexed data_set_name
        (buildVolumeStringIdcams volumes) "LINEAR"
    let rc2 := env.rc 1
    if rc2 = 0 then (.ok (), [command, command2])
    else
      (.error (DsError.catalogError name volumes rc2
        "Attempt to catalog VSAM data set failed."), [command, command2])

/-- The first recatalog command _catalog_vsam executes, as determined by the
    VTOC evidence. -/
def firstVsamCatalogCommand (env : VsamEnv) (name : String) (volumes : List String) : String :=
  if env.vtocDataEntry && env.vtocIndexEntry then
    vsamCatalogCommandIndexed (pyUpper name) (buildVolumeStringIdcams volumes) "INDEXED"
  else
    vsamCatalogCommandNotIndexed (pyUpper name) (buildVolumeStringIdcams volumes) "NONINDEXED"

/-! ## Non-VSAM uncatalog helper: DataSet._uncatalog_non_vsam (1179-1204)

The helper creates a temporary scratch data set, writes the UNCATLG command
into it, runs IEHPROGM with it, and in a finally block deletes the scratch
data set whenever it was created.  The oracle scripts whether the temporary
creation and the write succeed and the (rc, stdout) of the IEHPROGM run. -/

/-- Oracle for _uncatalog_non_vsam. -/
structure UncatEnv where
  createTempOk : Bool
  writeOk : Bool
  rc : Int
  stdout : String

/-- Steps taken by _uncatalog_non_vsam, in order. -/
inductive UEv where
  | createTemp
  | writeTemp
  | runUncatalog (input : String)
  | deleteTemp
deriving Repr, DecidableEq

/-- The _NON_VSAM_UNCATALOG_COMMAND template with the name spliced in. -/
def nonVsamUncatalogCommand (name : String) : String := " UNCATLG DSNAME=" ++ name

/-- DataSet._uncatalog_non_vsam over the oracle.  When the temporary
    creation raises, temp_name is still None and the finally block skips the
    delete; on every later path (write failure, nonzero return code, missing
    NORMAL END OF TASK RETURNED marker, or success) the finally block deletes
    the scratch data set. -/
def uncatalog_non_vsam (env : UncatEnv) (name : String) :
    Except DsError Unit × List UEv :=
  if !env.createTempOk then
    (.error (DsError.createError (String.mk ((splitOnC (Char.ofNat 46) name.toList).headD [])) ""), [UEv.createTemp])
  else if !env.writeOk then
    (.error (DsError.writeError name), [UEv.createTemp, UEv.writeTemp, UEv.deleteTemp])
  else if env.rc ≠ 0 || !(strContains env.stdout "NORMAL END OF TASK RETURNED") then
    (.error (DsError.uncatalogError name),
      [UEv.createTemp, UEv.writeTemp, UEv.runUncatalog (nonVsamUncatalogCommand name),
       UEv.deleteTemp])
  else
    (.ok (),
      [UEv.createTemp, UEv.writeTemp, UEv.runUncatalog (nonVsamUncatalogCommand name),
       UEv.deleteTemp])

/-! ## Concrete environments used as witnesses and counterexamples -/

/-- An environment in which no catalog query ever finds the data set. -/
def envNotCat : Env :=
  { catQ := fun _ _ => false
    volListQ := fun _ => []
    uncatOk := fun _ => true
    catOk := fun _ => true
    delOk := fun _ => true
    createErr := fun _ => none
    formatOk := true }

/-- An environment in which every catalog query answers true and every
    primitive succeeds. -/
def envCatSimple : Env :=
  { catQ := fun _ _ => true
    volListQ := fun _ => []
    uncatOk := fun _ => true
    catOk := fun _ => true
    delOk := fun _ => true
    createErr := fun _ => none
    formatOk := true }

/-- An environment in which the data set is cataloged (the unfiltered query
    answers true) but not on any requested volume (every volume filtered
    query answers false). -/
def envCatElsewhere : Env :=
  { catQ := fun _ v => v.isNone
    volListQ := fun _ => ["VOL001"]
    uncatOk := fun _ => true
    catOk := fun _ => true
    delOk := fun _ => true
    createErr := fun _ => none
    formatOk := true }

/-- The divergence scenario: the first query (no filter) answers true, the
    second (with the requested volumes) answers false, the verification
    query answers true again, and every mutation succeeds. -/
def envDiverged : Env :=
  { catQ := fun i _ => i ≠ 1
    volListQ := fun _ => ["VOL001"]
    uncatOk := fun _ => true
    catOk := fun _ => true
    delOk := fun _ => true
    createErr := fun _ => none
    formatOk := true }

/-- An environment in which the data set is never seen in the catalog, the
    create raises the exists-on-volume error, and the catalog primitive
    succeeds, so the catalog-from-volume recovery succeeds. -/
def envRecover : Env :=
  { catQ := fun _ _ => false
    volListQ := fun _ => []
    uncatOk := fun _ => true
    catOk := fun _ => true
    delOk := fun _ => true
    createErr := fun _ => some "BGYSC1103E Error Code: 0x4704"
    formatOk := true }

/-- A VSAM oracle in which both VTOC entries exist and every IDCAMS
    invocation returns 12. -/
def vsamEnvAllFail : VsamEnv :=
  { vtocDataEntry := true
    vtocIndexEntry := true
    rc := fun _ => 12 }

/-- An uncatalog oracle in which everything succeeds. -/
def uncatEnvOk : UncatEnv :=
  { createTempOk := true
    writeOk := true
    rc := 0
    stdout := "IEH101I NORMAL END OF TASK RETURNED" }

/-- A name of twenty-three single-letter qualifiers. -/
def name23 : String := String.intercalate "." (List.replicate 23 "A")

/-! ## Theorems -/

/-- C9: with state other than absent and no explicit record_length, record
    format FB yields the default record length 80, VB yields 137 and U
    yields 0. -/
theorem c9_record_length_defaults (state : String) (h : state ≠ "absent") :
    record_length none state (some "FB") = .ok (some 80) ∧
    record_length none state (some "VB") = .ok (some 137) ∧
    record_length none state (some "U") = .ok (some 0) := by
  refine ⟨?_, ?_, ?_⟩ <;>
    (unfold record_length; rw [if_neg h]; rfl)

/-- Witness for C9 at the concrete state present. -/
theorem c9_record_length_defaults_w :
    record_length none "present" (some "FB") = .ok (some 80) ∧
    record_length none "present" (some "VB") = .ok (some 137) ∧
    record_length none "present" (some "U") = .ok (some 0) :=
  c9_record_length_defaults "present" (by decide)

/-- C4, as the code stands: data_set_cataloged never raises.  Whatever the
    return code and response text of the executor, the lookup returns a
    boolean; the return code is never inspected. -/
theorem c4_lookup_never_raises (rc : Int) (stdout name : String)
    (volumes : Option (List String)) (volListStdout : String) :
    ∃ b, data_set_cataloged rc stdout name volumes volListStdout = .ok b := by
  unfold data_set_cataloged
  split
  · exact ⟨_, rfl⟩
  · exact ⟨_, rfl⟩

/-- Counterexample to C4 as stated: a nonzero executor return code with
    response text matching no recognized not-found pattern is NOT surfaced
    as an execution error; the lookup just returns a negative result. -/
theorem c4_nonzero_rc_cex :
    data_set_cataloged 8 "UNRECOGNIZED ERROR TEXT" "USER.TEST" none "" = .ok false ∧
    strContains "UNRECOGNIZED ERROR TEXT" "NOT FOUND" = false ∧
    (8 : Int) ≠ 0 :=
  ⟨rfl, rfl, by decide⟩

/-- C8: whenever the temporary scratch data set is created, the finally
    block of _uncatalog_non_vsam deletes it, on every path: uncatalog
    success, nonzero return code, missing NORMAL END OF TASK RETURNED
    marker, and even a failing write. -/
theorem c8_temp_cleanup (env : UncatEnv) (name : String)
    (h : env.createTempOk = true) :
    UEv.deleteTemp ∈ (uncatalog_non_vsam env name).2 := by
  unfold uncatalog_non_vsam
  rw [h]
  split
  · simp at *
  · split
    · simp
    · split <;> simp

/-- Witness for C8 in the all-success environment. -/
theorem c8_temp_cleanup_w :
    UEv.deleteTemp ∈ (uncatalog_non_vsam uncatEnvOk "USER.TEST").2 :=
  c8_temp_cleanup uncatEnvOk "USER.TEST" rfl

/-- Counterexample to C7 as stated: the validator does not accept every name
    of 1 to 22 qualifiers with an optional member suffix.  A single valid
    qualifier is rejected (the regex demands at least one dot, so at least
    two qualifiers), and a member-suffixed name is rejected whenever the
    type dependency is not MEMBER. -/
theorem c7_name_validator_cex :
    data_set_name "ABC" (some "PDS") =
      .error "Value ABC is invalid for data set argument." ∧
    data_set_name "ABC" (some "MEMBER") =
      .error "Value ABC is invalid for data set argument." ∧
    validQualifier "ABC".toList = true ∧
    data_set_name "A1-B2.C3(MEM1)" (some "PDS") =
      .error "Value A1-B2.C3(MEM1) is invalid for data set argument." :=
  ⟨rfl, rfl, rfl, rfl⟩

/-- C7 amended: the validator accepts exactly the names of 2 to 22 dotted
    qualifiers (each 1 to 8 characters, starting with a letter or national
    character, continuing with letters, digits, national characters or
    hyphen), with a parenthesized member suffix accepted only when the type
    dependency is MEMBER.  It accepts A.B.C for any type and
    A1-B2.C3(MEM1) for type MEMBER, and rejects a qualifier longer than 8
    characters and a name of more than 22 qualifiers for every type. -/
theorem c7_name_validator :
    (∀ t, data_set_name "A.B.C" t = .ok "A.B.C") ∧
    data_set_name "A1-B2.C3(MEM1)" (some "MEMBER") = .ok "A1-B2.C3(MEM1)" ∧
    (∀ t, data_set_name "ABCDEFGHI.B" t =
      .error "Value ABCDEFGHI.B is invalid for data set argument.") ∧
    (∀ t, data_set_name name23 t =
      .error ("Value " ++ name23 ++ " is invalid for data set argument.")) ∧
    (∀ q, validQualifier q = true → q.length ≤ 8) ∧
    (∀ s, matchDsnameBase s = true →
      2 ≤ (splitOnC '.' s.toList).length ∧ (splitOnC '.' s.toList).length ≤ 22 ∧
      ∀ q ∈ splitOnC '.' s.toList, validQualifier q = true) := by
  refine ⟨?_, rfl, ?_, ?_, ?_, ?_⟩
  · intro t
    simp only [data_set_name, show matchDsnameBase "A.B.C" = true from rfl, if_true]
    rfl
  · intro t
    simp [data_set_name,
      show matchDsnameBase "ABCDEFGHI.B" = false from rfl,
      show matchDsnameWithMember "ABCDEFGHI.B" = false from rfl]
  · intro t
    simp [data_set_name,
      show matchDsnameBase name23 = false from rfl,
      show matchDsnameWithMember name23 = false from rfl]
  · intro q hq
    unfold validQualifier at hq
    cases q with
    | nil => exact absurd hq (by simp)
    | cons c cs =>
        simp only [Bool.and_eq_true, decide_eq_true_eq] at hq
        simpa using hq.1.2
  · intro s hs
    unfold matchDsnameBase at hs
    simp only [Bool.and_eq_true, decide_eq_true_eq, List.all_eq_true] at hs
    exact ⟨hs.1.1, hs.1.2, hs.2⟩

/-- Witness for C7 amended: the universally quantified rejection conjuncts
    instantiated at a concrete type dependency. -/
theorem c7_name_validator_w :
    data_set_name "A.B.C" (some "SEQ") = .ok "A.B.C" ∧
    data_set_name "ABCDEFGHI.B" (some "MEMBER") =
      .error "Value ABCDEFGHI.B is invalid for data set argument." ∧
    data_set_name name23 none =
      .error ("Value " ++ name23 ++ " is invalid for data set argument.") ∧
    "ABCDEFG".toList.length ≤ 8 :=
  ⟨c7_name_validator.1 (some "SEQ"),
   c7_name_validator.2.2.1 (some "MEMBER"),
   c7_name_validator.2.2.2.1 none,
   c7_name_validator.2.2.2.2.1 "ABCDEFG".toList rfl⟩

/-- Counterexample to C2 as stated: in the worst case (both recatalog
    attempts return nonzero) exactly TWO facility invocations occur before
    the catalog error is raised, not three.  This version of _catalog_vsam
    chooses indexed or non-indexed from the VTOC evidence as its single
    first attempt and then falls back once to linear. -/
theorem c2_three_invocations_cex :
    ((catalog_vsam vsamEnvAllFail "USER.VS" ["VOL001"]).2).length = 2 ∧
    ¬ ((catalog_vsam vsamEnvAllFail "USER.VS" ["VOL001"]).2).length = 3 ∧
    (catalog_vsam vsamEnvAllFail "USER.VS" ["VOL001"]).1 =
      .error (DsError.catalogError "USER.VS" ["VOL001"] 12
        "Attempt to catalog VSAM data set failed.") := by
  refine ⟨rfl, ?_, rfl⟩
  rw [show ((catalog_vsam vsamEnvAllFail "USER.VS" ["VOL001"]).2).length = 2 from rfl]
  decide

/-- C2 amended: when the first cluster-recatalog attempt (indexed or
    non-indexed, chosen from the volume-table evidence) returns nonzero,
    _catalog_vsam makes a final linear-cluster recatalog attempt before
    raising a catalog error, and in the worst case exactly two facility
    invocations occur before the error is raised. -/
theorem c2_linear_fallback (env : VsamEnv) (name : String) (volumes : List String)
    (h0 : env.rc 0 ≠ 0) (h1 : env.rc 1 ≠ 0) :
    catalog_vsam env name volumes =
      (.error (DsError.catalogError name volumes (env.rc 1)
        "Attempt to catalog VSAM data set failed."),
       [firstVsamCatalogCommand env name volumes,
        vsamCatalogCommandNotIndexed (pyUpper name) (buildVolumeStringIdcams volumes)
          "LINEAR"]) ∧
    ((catalog_vsam env name volumes).2).length = 2 := by
  have hmain : catalog_vsam env name volumes =
      (.error (DsError.catalogError name volumes (env.rc 1)
        "Attempt to catalog VSAM data set failed."),
       [firstVsamCatalogCommand env name volumes,
        vsamCatalogCommandNotIndexed (pyUpper name) (buildVolumeStringIdcams volumes)
          "LINEAR"]) := by
    unfold catalog_vsam firstVsamCatalogCommand
    by_cases hd : env.vtocDataEntry <;> by_cases hi : env.vtocIndexEntry <;>
      simp [hd, hi, h0, h1]
  exact ⟨hmain, by rw [hmain]; rfl⟩

/-- Witness for C2 amended in the all-fail VSAM environment. -/
theorem c2_linear_fallback_w :
    catalog_vsam vsamEnvAllFail "USER.VS" ["VOL001"] =
      (.error (DsError.catalogError "USER.VS" ["VOL001"] 12
        "Attempt to catalog VSAM data set failed."),
       [firstVsamCatalogCommand vsamEnvAllFail "USER.VS" ["VOL001"],
        vsamCatalogCommandNotIndexed (pyUpper "USER.VS")
          (buildVolumeStringIdcams ["VOL001"]) "LINEAR"]) ∧
    ((catalog_vsam vsamEnvAllFail "USER.VS" ["VOL001"]).2).length = 2 :=
  c2_linear_fallback vsamEnvAllFail "USER.VS" ["VOL001"] (by decide) (by decide)

/-- C6: on a name that is not cataloged and with no volumes supplied,
    ensure_absent returns changed=false, raises no exception, and performs
    no mutating primitive at all; so a second call after a successful
    removal reports changed=false. -/
theorem c6_absent_idempotent (env : Env) (name : String)
    (h : env.catQ 0 none = false) :
    ensure_absent env name none =
      (.ok false, (⟨1, 0, 0, 0, 0, 0⟩, [Ev.query none false])) := by
  unfold ensure_absent attempt_catalog_if_necessary_and_delete doQuery truthy
  simp [h, Cnt.init]

/-- Witness for C6 on a never-existing name. -/
theorem c6_absent_idempotent_w :
    ensure_absent envNotCat "USER.NOPE" none =
      (.ok false, (⟨1, 0, 0, 0, 0, 0⟩, [Ev.query none false])) :=
  c6_absent_idempotent envNotCat "USER.NOPE" rfl

/-- Counterexample to C3 as stated: ensure_cataloged is NOT a no-op exactly
    when the data set is cataloged under the given volumes.  Its no-op check
    queries the catalog with no volume filter, so in an environment where
    the data set is cataloged but not on any requested volume it still
    no-ops with changed=false. -/
theorem c3_volume_noop_cex :
    (ensure_cataloged envCatElsewhere "USER.TEST" ["VOL002"]).1 = .ok false ∧
    envCatElsewhere.catQ 0 (some ["VOL002"]) = false ∧
    envCatElsewhere.catQ 0 none = true :=
  ⟨rfl, rfl, rfl⟩

/-- C3 amended: ensure_cataloged is a no-op (changed=false) exactly when the
    data set is already cataloged at all (the check carries no volume
    filter); otherwise it attempts the catalog, reporting changed=true on
    success and surfacing a catalog failure as the specific
    not-found-cannot-catalog catalog error. -/
theorem c3_ensure_cataloged (env : Env) (name : String) (vols : List String) :
    (env.catQ 0 none = true →
      ensure_cataloged env name vols =
        (.ok false, (⟨1, 0, 0, 0, 0, 0⟩, [Ev.query none true]))) ∧
    (env.catQ 0 none = false → env.catOk 0 = true →
      ensure_cataloged env name vols =
        (.ok true, (⟨1, 0, 0, 1, 0, 0⟩, [Ev.query none false, Ev.cat vols true]))) ∧
    (env.catQ 0 none = false → env.catOk 0 = false →
      ensure_cataloged env name vols =
        (.error (DsError.catalogError name vols (-1)
          "Data set was not found. Unable to catalog."),
         (⟨1, 0, 0, 1, 0, 0⟩, [Ev.query none false, Ev.cat vols false]))) := by
  refine ⟨?_, ?_, ?_⟩ <;>
    (intros
     unfold ensure_cataloged doQuery doCat
     simp [Cnt.init, *])

/-- Witness for C3 amended: the no-op case in the cataloged-elsewhere
    environment, applying the amended theorem at a concrete input. -/
theorem c3_ensure_cataloged_w :
    ensure_cataloged envCatElsewhere "USER.TEST" ["VOL002"] =
      (.ok false, (⟨1, 0, 0, 0, 0, 0⟩, [Ev.query none true])) :=
  (c3_ensure_cataloged envCatElsewhere "USER.TEST" ["VOL002"]).1 rfl

/-- C1: in the divergence scenario (cataloged, but not on the supplied
    volumes) with every step succeeding, the engine performs, in this exact
    order: the original cataloged-volume list lookup, uncatalog, catalog on
    the requested volumes, the verification query on the requested volumes,
    delete, and the best-effort recatalog of the original volumes; and when
    the delete succeeded the result is changed=true, present=false whether
    that final recatalog succeeds or fails (its outcome env.catOk 1 is left
    free).  ensure_absent accordingly reports changed=true. -/
theorem c1_divergence_protocol (env : Env) (name : String) (vols : List String)
    (hv : vols ≠ [])
    (h1 : env.catQ 0 none = true)
    (h2 : env.catQ 1 (some vols) = false)
    (h3 : env.uncatOk 0 = true)
    (h4 : env.catOk 0 = true)
    (h5 : env.catQ 2 (some vols) = true)
    (h6 : env.delOk 0 = true) :
    attempt_catalog_if_necessary_and_delete env name (some vols) =
      (.ok (true, false),
       (⟨3, 1, 1, 2, 1, 0⟩,
        [Ev.query none true, Ev.query (some vols) false,
         Ev.queryVolList (env.volListQ 0), Ev.uncat true, Ev.cat vols true,
         Ev.query (some vols) true, Ev.del true,
         Ev.cat (env.volListQ 0) (env.catOk 1)])) ∧
    ensure_absent env name (some vols) =
      (.ok true,
       (⟨3, 1, 1, 2, 1, 0⟩,
        [Ev.query none true, Ev.query (some vols) false,
         Ev.queryVolList (env.volListQ 0), Ev.uncat true, Ev.cat vols true,
         Ev.query (some vols) true, Ev.del true,
         Ev.cat (env.volListQ 0) (env.catOk 1)])) := by
  cases vols with
  | nil => exact absurd rfl hv
  | cons v vs =>
      refine ⟨?_, ?_⟩
      · unfold attempt_catalog_if_necessary_and_delete
          doQuery doVolList doUncat doCat doDelete truthy
        simp [Cnt.init, h1, h2, h3, h4, h5, h6]
      · unfold ensure_absent attempt_catalog_if_necessary_and_delete
          doQuery doVolList doUncat doCat doDelete truthy
        simp [Cnt.init, h1, h2, h3, h4, h5, h6]

/-- Witness for C1 in the concrete divergence environment. -/
theorem c1_divergence_protocol_w :
    attempt_catalog_if_necessary_and_delete envDiverged "USER.TEST" (some ["VOLB"]) =
      (.ok (true, false),
       (⟨3, 1, 1, 2, 1, 0⟩,
        [Ev.query none true, Ev.query (some ["VOLB"]) false,
         Ev.queryVolList ["VOL001"], Ev.uncat true, Ev.cat ["VOLB"] true,
         Ev.query (some ["VOLB"]) true, Ev.del true,
         Ev.cat ["VOL001"] true])) :=
  (c1_divergence_protocol envDiverged "USER.TEST" ["VOLB"]
    (by decide) rfl rfl rfl rfl rfl rfl).1

/-- C10: on every non-exception return path of
    attempt_catalog_if_necessary_and_delete, changed=true implies
    present=false; no return reports a change while also reporting the data
    set still present. -/
theorem c10_changed_implies_absent (env : Env) (name : String)
    (volumes : Option (List String)) (changed present : Bool) (s : St)
    (h : attempt_catalog_if_necessary_and_delete env name volumes =
      (.ok (changed, present), s)) :
    changed = true → present = false := by
  intro hc
  subst hc
  unfold attempt_catalog_if_necessary_and_delete at h
  simp only [doQuery, doVolList, doUncat, doCat, doDelete] at h
  split_ifs at h <;> simp_all

/-- C5: when the initial catalog query is negative and the create raises a
    creation error whose message contains the exists-on-volume signature
    Error Code: 0x4704, ensure_present (replace=false, non-ZFS type) runs
    the catalog-from-volume recovery from the state reached after the query
    and the create; when the recovery reports present and changed the call
    returns changed=true with no error, and otherwise the original creation
    error propagates. -/
theorem c5_create_recovery (env : Env) (name msg : String)
    (volumes : Option (List String))
    (h0 : env.catQ 0 none = false)
    (h1 : env.createErr 0 = some msg)
    (h2 : strContains msg "Error Code: 0x4704" = true) :
    ((attempt_catalog_if_necessary env
        (⟨1, 0, 0, 0, 0, 1⟩, [Ev.query none false, Ev.create (some msg)])
        name volumes).1 = (true, true) →
      (ensure_present env name false "SEQ" volumes).1 = .ok true) ∧
    ((attempt_catalog_if_necessary env
        (⟨1, 0, 0, 0, 0, 1⟩, [Ev.query none false, Ev.create (some msg)])
        name volumes).1 ≠ (true, true) →
      (ensure_present env name false "SEQ" volumes).1 =
        .error (DsError.createError name msg)) := by
  have hstep : ensure_present env name false "SEQ" volumes =
      (let pc := (attempt_catalog_if_necessary env
        (⟨1, 0, 0, 0, 0, 1⟩, [Ev.query none false, Ev.create (some msg)])
        name volumes)
       if pc.1.1 && pc.1.2 then (.ok pc.1.2, pc.2)
       else (.error (DsError.createError name msg), pc.2)) := by
    unfold ensure_present doQuery doCreate
    simp [Cnt.init, h0, h1, h2]
  constructor
  · intro hrec
    rw [hstep]
    simp [hrec]
  · intro hrec
    rw [hstep]
    have hne : ((attempt_catalog_if_necessary env
        (⟨1, 0, 0, 0, 0, 1⟩, [Ev.query none false, Ev.create (some msg)])
        name volumes).1.1 &&
      (attempt_catalog_if_necessary env
        (⟨1, 0, 0, 0, 0, 1⟩, [Ev.query none false, Ev.create (some msg)])
        name volumes).1.2) = false := by
      rcases hpc : (attempt_catalog_if_necessary env
        (⟨1, 0, 0, 0, 0, 1⟩, [Ev.query none false, Ev.create (some msg)])
        name volumes).1 with ⟨p, c⟩
      rw [hpc] at hrec
      cases p <;> cases c <;> simp_all
    simp [hne]

/-- Witness for C5 in the recovery environment, where the recovery reports
    present and changed and the call returns changed=true. -/
theorem c5_create_recovery_w :
    (ensure_present envRecover "USER.TEST" false "SEQ" (some ["VOL001"])).1 =
      .ok true :=
  (c5_create_recovery envRecover "USER.TEST" "BGYSC1103E Error Code: 0x4704"
    (some ["VOL001"]) rfl rfl rfl).1 rfl

/-- Witness for C10: applying the invariant on a concrete run that deletes
    a cataloged data set. -/
theorem c10_changed_implies_absent_w :
    attempt_catalog_if_necessary_and_delete envCatSimple "USER.A" none =
      (.ok (true, false), (⟨1, 0, 0, 0, 1, 0⟩, [Ev.query none true, Ev.del true])) ∧
    (false : Bool) = false :=
  ⟨rfl,
   c10_changed_implies_absent envCatSimple "USER.A" none true false
     (⟨1, 0, 0, 0, 1, 0⟩, [Ev.query none true, Ev.del true]) rfl rfl⟩

end ZosDataSet
